import Mathlib

/-!
Verification of the relationship-filtered join accessor
(src/crates/bevy_ecs/src/system/related_system.rs).

The `Related` accessor joins a primary data query (filter `F1` plus the
relationship-target marker `With R`) with a secondary relationship query
(component `R::Relationship` under filter `F2`).  The accessor itself is
translated from the source; the underlying filtered-query layer
(`Query::iter`, `Query::iter_many`, `Query::get`, `Query::contains`,
`Query::init_state`) lives elsewhere in the repository and is modelled
here from the specification of the filtered query abstraction.
-/

namespace RelatedSystem

/-- Entities are opaque equality-comparable identifiers; modelled as naturals. -/
abbrev Entity := Nat

/-- Modelled from the spec: the point-lookup error of the underlying filtered
query layer (`QueryEntityError`, declared outside src/): either the entity does
not match the shape of the query, or it is absent from the store. -/
inductive QueryEntityError where
  | QueryDoesNotMatch (entity : Entity)
  | NoSuchEntity (entity : Entity)
deriving DecidableEq, Repr

/-- The two-variant error union of the accessor, translated from
`RelatedQueryEntityError` in the source: a primary-shape failure wrapping the
underlying query error, or a relationship-membership failure carrying the
queried entity. -/
inductive RelatedQueryEntityError where
  | RelationshipEntityError (err : QueryEntityError)
  | RelationshipTargetEntityError (entity : Entity)
deriving DecidableEq, Repr

/-- Modelled from the spec: one snapshot of the component store as seen by the
two queries during a single borrow.  `entities` lists the stored entities in
storage order; `relationships` lists the relationship components in storage
order as (source, target) pairs; `f1` and `f2` are the primary and secondary
filters as predicates on entities; `item` gives the data `D` yielded for an
entity by the primary query. -/
structure Store (Item : Type) where
  entities : List Entity
  relationships : List (Entity × Entity)
  f1 : Entity → Bool
  f2 : Entity → Bool
  item : Entity → Item

variable {Item : Type}

/-- Modelled from the spec: the relationship-target marker is implicitly
present on any entity that is the target of at least one relationship
component. -/
def hasMarker (st : Store Item) (e : Entity) : Bool :=
  st.relationships.any (fun p => p.2 == e)

/-- Modelled from the spec: the match set of the primary query
`Query<D, (F1, With R)>`, in the native storage order: entities satisfying
`F1` that carry the relationship-target marker. -/
def dataMatches (st : Store Item) : List Entity :=
  st.entities.filter (fun e => st.f1 e && hasMarker st e)

/-- Modelled from the spec: the containment check of the primary query
(`Query::contains`): membership in the match set. -/
def dataContains (st : Store Item) (e : Entity) : Bool :=
  (dataMatches st).contains e

/-- Modelled from the spec: the point lookup of the primary query
(`Query::get`): yields the item for a member of the match set and a typed
error otherwise. -/
def dataGet (st : Store Item) (e : Entity) : Except QueryEntityError Item :=
  if dataContains st e then Except.ok (st.item e)
  else Except.error (QueryEntityError.QueryDoesNotMatch e)

/-- Modelled from the spec: the mutable point lookup of the primary query
(`Query::get_mut`): identical success and failure semantics, the item handle
being mutable in the original. -/
def dataGetMut (st : Store Item) (e : Entity) : Except QueryEntityError Item :=
  if dataContains st e then Except.ok (st.item e)
  else Except.error (QueryEntityError.QueryDoesNotMatch e)

/-- Modelled from the spec: the multi-lookup of the primary query
(`Query::iter_many`): given a sequence of identifiers, yields an item for each
identifier present in the match set, silently skipping absent ones, in the
order of the input sequence. -/
def iterMany (st : Store Item) (ids : List Entity) : List Item :=
  (ids.filter (fun e => dataContains st e)).map st.item

/-- Modelled from the spec: the mutable multi-lookup of the primary query
(`Query::iter_many_mut`): the identical join, yielding mutable item handles in
the original. -/
def iterManyMut (st : Store Item) (ids : List Entity) : List Item :=
  (ids.filter (fun e => dataContains st e)).map st.item

/-- Modelled from the spec: the iteration of the secondary relationship query
`Query<R::Relationship, F2>`: the relationship components whose source entity
satisfies `F2`, in native storage order. -/
def filterIter (st : Store Item) : List (Entity × Entity) :=
  st.relationships.filter (fun p => st.f2 p.1)

/-- Translated from the source: `Relationship::get` returns the single target
entity held by a relationship component. -/
def Relationship.get (p : Entity × Entity) : Entity := p.2

/-- Translated from `Related::iter` in the source: feed the targets of the
secondary matches into the multi-lookup of the primary query. -/
def Related.iter (st : Store Item) : List Item :=
  iterMany st ((filterIter st).map Relationship.get)

/-- Translated from `Related::iter_mut` in the source: the same join through
the mutable multi-lookup. -/
def Related.iter_mut (st : Store Item) : List Item :=
  iterManyMut st ((filterIter st).map Relationship.get)

/-- Translated from `Related::contains` in the source: some secondary match
has target equal to `entity`, and the primary query contains `entity`. -/
def Related.contains (st : Store Item) (entity : Entity) : Bool :=
  ((filterIter st).map Relationship.get).any (fun e => e == entity)
    && dataContains st entity

/-- Translated from `Related::get` in the source: check membership first, then
delegate to the primary point lookup, wrapping its error. -/
def Related.get (st : Store Item) (entity : Entity) :
    Except RelatedQueryEntityError Item :=
  if Related.contains st entity then
    match dataGet st entity with
    | Except.ok item => Except.ok item
    | Except.error err =>
        Except.error (RelatedQueryEntityError.RelationshipEntityError err)
  else
    Except.error (RelatedQueryEntityError.RelationshipTargetEntityError entity)

/-- Translated from `Related::get_mut` in the source: the identical contract
through the mutable point lookup. -/
def Related.get_mut (st : Store Item) (entity : Entity) :
    Except RelatedQueryEntityError Item :=
  if Related.contains st entity then
    match dataGetMut st entity with
    | Except.ok item => Except.ok item
    | Except.error err =>
        Except.error (RelatedQueryEntityError.RelationshipEntityError err)
  else
    Except.error (RelatedQueryEntityError.RelationshipTargetEntityError entity)

/-- One call of `Related::iter`: the method borrows the accessor immutably
(`&self` in the source), so a call returns the yielded sequence together with
the accessor state it leaves behind, which is the unchanged store borrow. -/
def Related.iterCall (st : Store Item) : List Item × Store Item :=
  (Related.iter st, st)

/-- A store mutation between two calls: removing the relationship component
attached to source entity `s`. -/
def removeRelationship (st : Store Item) (s : Entity) : Store Item :=
  { st with relationships := st.relationships.filter (fun p => !(p.1 == s)) }

/-- Modelled from the spec: the access metadata of the enclosing system, an
accumulated list of declared component accesses consumed by the external
conflict checker. -/
structure SystemMeta (Access : Type) where
  accesses : List Access

/-- Modelled from the spec: `Query::init_state` (declared outside src/)
registers the complete access footprint `fp` of one query with the system
metadata. -/
def Query.init_state {Access : Type} (fp : List Access)
    (meta : SystemMeta Access) : SystemMeta Access :=
  { accesses := meta.accesses ++ fp }

/-- Translated from `Related::init_state` in the source: register the full
footprint of the primary data query, then the full footprint of the secondary
relationship query. -/
def Related.init_state {Access : Type} (fpData fpFilter : List Access)
    (meta : SystemMeta Access) : SystemMeta Access :=
  Query.init_state fpFilter (Query.init_state fpData meta)

/-- A concrete demonstration store over `Item := Nat`: entity 1 is the target
of a relationship from source 2, every filter passes, and the item of an
entity is the entity itself. -/
def demoStore : Store Nat :=
  { entities := [1, 2]
    relationships := [(2, 1)]
    f1 := fun _ => true
    f2 := fun _ => true
    item := fun e => e }

/-- Characterization of the modelled primary containment check. -/
theorem dataContains_iff (st : Store Item) (e : Entity) :
    dataContains st e = true ↔
      e ∈ st.entities ∧ st.f1 e = true ∧ hasMarker st e = true := by
  simp [dataContains, dataMatches, List.contains, List.elem_iff,
    List.mem_filter, and_assoc]

/-- Characterization of the translated membership check: some relationship
whose source satisfies `F2` targets `e`, and the primary query contains `e`. -/
theorem contains_spec (st : Store Item) (e : Entity) :
    Related.contains st e = true ↔
      (∃ p ∈ st.relationships, st.f2 p.1 = true ∧ p.2 = e) ∧
        dataContains st e = true := by
  simp only [Related.contains, filterIter, Relationship.get, Bool.and_eq_true,
    List.any_eq_true, List.mem_map, List.mem_filter, beq_iff_eq]
  constructor
  · rintro ⟨⟨x, ⟨p, ⟨hp, hf2⟩, hx⟩, hxe⟩, hd⟩
    exact ⟨⟨p, hp, hf2, hx.symm ▸ hxe⟩, hd⟩
  · rintro ⟨⟨p, hp, hf2, hpe⟩, hd⟩
    exact ⟨⟨p.2, ⟨p, ⟨hp, hf2⟩, rfl⟩, hpe⟩, hd⟩

/-- C1: `contains e` holds iff some secondary match satisfying `F2` has target
`e` and the primary containment check on `e` succeeds, the latter meaning `e`
is stored, satisfies `F1` and carries the relationship-target marker.  In
particular a qualifying source pointing at `e` does not suffice when the
primary check on `e` fails. -/
theorem contains_iff_join (st : Store Item) (e : Entity) :
    (Related.contains st e = true ↔
      (∃ p ∈ st.relationships, st.f2 p.1 = true ∧ p.2 = e) ∧
        dataContains st e = true) ∧
    (dataContains st e = true ↔
      e ∈ st.entities ∧ st.f1 e = true ∧ hasMarker st e = true) :=
  ⟨contains_spec st e, dataContains_iff st e⟩

/-- C2: `get e` yields the relationship-membership error carrying `e` exactly
when `contains e` is false, and otherwise returns the primary point lookup of
`e` with any lookup failure wrapped in the primary-shape variant. -/
theorem get_contract (st : Store Item) (e : Entity) :
    (Related.contains st e = false →
      Related.get st e =
        Except.error (RelatedQueryEntityError.RelationshipTargetEntityError e)) ∧
    (Related.contains st e = true →
      Related.get st e =
        (dataGet st e).mapError RelatedQueryEntityError.RelationshipEntityError) ∧
    (Related.get st e =
        Except.error (RelatedQueryEntityError.RelationshipTargetEntityError e) ↔
      Related.contains st e = false) := by
  cases hc : Related.contains st e with
  | false => simp [Related.get, hc]
  | true =>
      cases hd : dataGet st e with
      | ok it => simp [Related.get, hc, hd, Except.mapError]
      | error err => simp [Related.get, hc, hd, Except.mapError]

/-- Witness for C2 at the demonstration store: entity 1 is a member, so `get`
returns exactly the wrapped primary lookup. -/
theorem get_contract_witness :
    Related.get demoStore 1 =
      (dataGet demoStore 1).mapError
        RelatedQueryEntityError.RelationshipEntityError :=
  (get_contract demoStore 1).2.1 (by decide)

/-- C3: one full traversal yields as many items as there are secondary matches
(relationships whose source satisfies `F2`) whose target is contained in the
primary match set: duplicates are counted per qualifying source and absent
targets are skipped. -/
theorem iter_count (st : Store Item) :
    (Related.iter st).length =
      st.relationships.countP (fun p => st.f2 p.1 && dataContains st p.2) := by
  simp only [Related.iter, iterMany, filterIter, List.length_map,
    ← List.countP_eq_length_filter, List.countP_map, List.countP_filter]
  congr 1
  funext p
  simp [Function.comp, Relationship.get, Bool.and_comm]

/-- C4: the yielded sequence is exactly the secondary traversal order
restricted to qualifying matches, mapped to the target items, with no
deduplication: a target referenced by two qualifying sources appears once per
source, in those positions. -/
theorem iter_order (st : Store Item) :
    Related.iter st =
      ((st.relationships.filter (fun p => st.f2 p.1)).filter
          (fun p => dataContains st p.2)).map (fun p => st.item p.2) := by
  simp only [Related.iter, iterMany, filterIter, List.filter_map, List.map_map]
  rfl

/-- C5: the mutable operations perform the identical join and satisfy the
identical contract as the read-only ones, differing only in the mutability of
the item handles, which the model does not distinguish. -/
theorem mut_matches_readonly (st : Store Item) :
    Related.iter_mut st = Related.iter st ∧
    ∀ e, Related.get_mut st e = Related.get st e :=
  ⟨rfl, fun _ => rfl⟩

/-- C6: two consecutive calls of `iter` with no store mutation in between
yield identical sequences: the first call leaves the accessor unchanged and
the second call on that accessor yields the same list. -/
theorem iter_idempotent (st : Store Item) :
    (Related.iterCall st).fst =
      (Related.iterCall (Related.iterCall st).snd).fst := rfl

/-- C7: `get` and `get_mut` are total and every outcome is a value of the
typed result union: a successful item, a primary-shape error wrapping the
underlying query error, or the relationship-membership error carrying exactly
the queried entity; no input aborts. -/
theorem get_total_typed_errors (st : Store Item) (e : Entity) :
    ((∃ it, Related.get st e = Except.ok it) ∨
      (∃ err, Related.get st e =
        Except.error (RelatedQueryEntityError.RelationshipEntityError err)) ∨
      Related.get st e =
        Except.error (RelatedQueryEntityError.RelationshipTargetEntityError e)) ∧
    ((∃ it, Related.get_mut st e = Except.ok it) ∨
      (∃ err, Related.get_mut st e =
        Except.error (RelatedQueryEntityError.RelationshipEntityError err)) ∨
      Related.get_mut st e =
        Except.error (RelatedQueryEntityError.RelationshipTargetEntityError e)) := by
  constructor
  · cases hc : Related.contains st e with
    | false => exact Or.inr (Or.inr (by simp [Related.get, hc]))
    | true =>
        cases hd : dataGet st e with
        | ok it => exact Or.inl ⟨it, by simp [Related.get, hc, hd]⟩
        | error err => exact Or.inr (Or.inl ⟨err, by simp [Related.get, hc, hd]⟩)
  · cases hc : Related.contains st e with
    | false => exact Or.inr (Or.inr (by simp [Related.get_mut, hc]))
    | true =>
        cases hd : dataGetMut st e with
        | ok it => exact Or.inl ⟨it, by simp [Related.get_mut, hc, hd]⟩
        | error err =>
            exact Or.inr (Or.inl ⟨err, by simp [Related.get_mut, hc, hd]⟩)

/-- C8: membership is recomputed from the live secondary query: if every
qualifying relationship targeting `X` comes from source `s`, then `contains X`
is true before removing the relationship component of `s` and false right
after, with no stale result. -/
theorem contains_recomputed (st : Store Item) (s X : Entity)
    (hmem : (s, X) ∈ st.relationships) (hf2 : st.f2 s = true)
    (hdata : dataContains st X = true)
    (honly : ∀ p ∈ st.relationships, st.f2 p.1 = true → p.2 = X → p.1 = s) :
    Related.contains st X = true ∧
    Related.contains (removeRelationship st s) X = false := by
  refine ⟨(contains_spec st X).mpr ⟨⟨(s, X), hmem, hf2, rfl⟩, hdata⟩, ?_⟩
  cases hcb : Related.contains (removeRelationship st s) X with
  | false => rfl
  | true =>
      exfalso
      obtain ⟨⟨p, hp, hf2p, hpX⟩, -⟩ := (contains_spec _ X).mp hcb
      simp only [removeRelationship, List.mem_filter, Bool.not_eq_true',
        beq_eq_false_iff_ne, ne_eq] at hp
      exact hp.2 (honly p hp.1 hf2p hpX)

/-- Witness for C8 at the demonstration store: removing the relationship of
source 2 flips `contains 1` from true to false. -/
theorem contains_recomputed_witness :
    ((2, 1) ∈ demoStore.relationships ∧ demoStore.f2 2 = true ∧
      dataContains demoStore 1 = true ∧
      (∀ p ∈ demoStore.relationships,
        demoStore.f2 p.1 = true → p.2 = 1 → p.1 = 2)) ∧
    (Related.contains demoStore 1 = true ∧
      Related.contains (removeRelationship demoStore 2) 1 = false) :=
  ⟨⟨by decide, by decide, by decide, by decide⟩,
    contains_recomputed demoStore 2 1 (by decide) (by decide) (by decide)
      (by decide)⟩

/-- C9: the state initialization registers the complete footprints of both
queries: the declared accesses are exactly the previous ones followed by the
full primary footprint and the full secondary footprint, so an access is
declared iff it was already declared or belongs to either footprint. -/
theorem init_state_declares_union {Access : Type} (fpData fpFilter : List Access)
    (meta : SystemMeta Access) :
    (Related.init_state fpData fpFilter meta).accesses =
      meta.accesses ++ (fpData ++ fpFilter) ∧
    ∀ a, a ∈ (Related.init_state fpData fpFilter meta).accesses ↔
      (a ∈ meta.accesses ∨ a ∈ fpData ∨ a ∈ fpFilter) := by
  constructor
  · simp [Related.init_state, Query.init_state, List.append_assoc]
  · intro a
    simp [Related.init_state, Query.init_state, List.mem_append, or_assoc]

/-- C10: with the store unchanged between the membership check and the lookup,
`contains e = true` forces `get e` to succeed with the item of `e`: the
primary-shape error branch is unreachable because membership already includes
the primary containment check. -/
theorem contains_implies_get_ok (st : Store Item) (e : Entity)
    (h : Related.contains st e = true) :
    Related.get st e = Except.ok (st.item e) := by
  have hd : dataContains st e = true := by
    have h2 := h
    simp only [Related.contains, Bool.and_eq_true] at h2
    exact h2.2
  simp [Related.get, h, dataGet, hd]

/-- Witness for C10 at the demonstration store: entity 1 is a member and `get`
succeeds with its item. -/
theorem contains_implies_get_ok_witness :
    Related.contains demoStore 1 = true ∧
    Related.get demoStore 1 = Except.ok (demoStore.item 1) :=
  ⟨by decide, contains_implies_get_ok demoStore 1 (by decide)⟩

end RelatedSystem
